import Mathlib

/-!
Shallow embedding of `spectre/eigensolver.py` (package `spectre`): a Fourier
spectral eigensolver for 1-, 2- and 3-dimensional Schrodinger-type problems.

Python floats are modelled by an arbitrary linear ordered field `K`; the
module-level helpers `_d1` and `_d2` take the trigonometric functions and
`pi` as explicit parameters, exactly where `np.tan`, `np.sin`, `np.pi` appear
in the source, and theorems about the actual trigonometric entries
instantiate them with `Real.tan` / `Real.sin` / `Real.pi`.  Dense numpy
arrays are modelled as total functions `Nat -> Nat -> K` together with
explicit size arguments; entries outside the stated size are junk and every
theorem quantifies only over in-range indices where the distinction matters.
Exceptions raised by the solver are modelled with `Except String`.

Control flow of `eigensolver` itself: the module imports only `numpy`,
`scipy.linalg` and `scipy.misc.factorial` — `itertools` is never imported —
yet line 109 executes `cb = it.combinations(np.arange(n),2)` unconditionally.
Consequently every call that passes the input validation of lines 82-97 (and
survives the `k_diag` rescaling of lines 106-107, which indexes
`k_diag[ii]` for `ii < n` and raises `IndexError` when a caller-supplied
`k_diag` is shorter than `n`) raises `NameError: name 'it' is not defined`
at line 109, before the sample points (line 118), the mesh (line 123), the
potential sampling (line 127), any Hamiltonian assembly (lines 129-149) and
any eigendecomposition (lines 151-164).  The embedding of `eigensolver`
below traces exactly this behaviour.  The differentiation-matrix builders,
the validation stage, the `k_diag` rescaling, and the index conventions of
the mesh/Kronecker code text are modelled as the standalone fragments
`_d1`/`_d2`, `validate`, `rescaleKdiag`, `meshRavelF`/`kron`.
-/

namespace Spectre

/-- Dense matrix entries (sizes are tracked separately, as in numpy). -/
abbrev Mat (K : Type*) := ℕ → ℕ → K

variable {K : Type*} [LinearOrderedField K]

/-- `np.eye N` (entries; the size argument appears at use sites). -/
def eye : Mat K := fun i j => if i = j then 1 else 0

/-- `np.kron A B` where the right factor `B` has shape `p × q`:
`kron(A,B)[i,j] = A[i/p, j/q] * B[i%p, j%q]`. -/
def kron (p q : ℕ) (A B : Mat K) : Mat K :=
  fun i j => A (i / p) (j / q) * B (i % p) (j % q)

/-- `scipy.linalg.toeplitz(col, row)`: `T[i,j] = col[i-j]` when `j ≤ i`,
else `row[j-i]`. -/
def toeplitz2 (col row : ℕ → K) : Mat K :=
  fun i j => if j ≤ i then col (i - j) else row (j - i)

/-- `scipy.linalg.toeplitz(col)` for a real column: the first row equals the
first column, giving a symmetric Toeplitz matrix. -/
def toeplitz1 (col : ℕ → K) : Mat K :=
  fun i j => if j ≤ i then col (i - j) else col (j - i)

/-- First column of `_d1`: `np.hstack(([0], 0.5*(-1)**i/np.tan(i*h/2.0)))`
for `i = 1..N-1` (the column formula, evaluated at any index). -/
def d1col (tan : K → K) (h : K) : ℕ → K :=
  fun i => if i = 0 then 0 else 1 / 2 * (-1) ^ i / tan ((i : K) * h / 2)

/-- First row of `_d1`: `np.hstack(([0], col[N-1:0:-1]))`, i.e. `row[0] = 0`
and `row[j] = col[N-j]` for `j = 1..N-1`. -/
def d1row (tan : K → K) (N : ℕ) (h : K) : ℕ → K :=
  fun j => if j = 0 then 0 else d1col tan h (N - j)

/-- `_d1(N, h)`: first-order Fourier spectral differentiation matrix,
`la.toeplitz(col, row)` with the column and row above. -/
def _d1 (tan : K → K) (N : ℕ) (h : K) : Mat K :=
  toeplitz2 (d1col tan h) (d1row tan N h)

/-- First column of `_d2`:
`np.hstack(([-np.pi**2/(3*h**2)-1.0/6.0, -0.5*(-1)**i/np.sin(h*i/2.0)**2]))`
for `i = 1..N-1`. -/
def d2col (sin : K → K) (pi : K) (h : K) : ℕ → K :=
  fun i => if i = 0 then -pi ^ 2 / (3 * h ^ 2) - 1 / 6
           else -(1 / 2) * (-1) ^ i / (sin (h * (i : K) / 2)) ^ 2

/-- `_d2(N, h)`: second-order Fourier spectral differentiation matrix,
`la.toeplitz(col)` (symmetric Toeplitz from a single column). -/
def _d2 (sin : K → K) (pi : K) (N : ℕ) (h : K) : Mat K :=
  toeplitz1 (d2col sin pi h)

/-- `np.meshgrid(*x)` (default `indexing='xy'`) followed by `.ravel('F')` on
each output array, as written at source lines 123-124.  For `n = 2` the
meshgrid outputs have shape `(N1, N0)` and Fortran ravel makes dimension 1
the fastest index: position `m` holds `(x0[m / N1], x1[m % N1])`.  For
`n = 3` the outputs have shape `(N1, N0, N2)` and Fortran ravel orders the
axes (dimension 1, dimension 0, dimension 2) from fastest to slowest:
position `m` holds `(x0[m / N1 % N0], x1[m % N1], x2[m / (N1 * N0)])`. -/
def meshRavelF (x : List (List K)) : List (List K) :=
  match x with
  | [x0] => [x0]
  | [x0, x1] =>
      let N0 := x0.length
      let N1 := x1.length
      [(List.range (N0 * N1)).map (fun m => x0.getD (m / N1) 0),
       (List.range (N0 * N1)).map (fun m => x1.getD (m % N1) 0)]
  | [x0, x1, x2] =>
      let N0 := x0.length
      let N1 := x1.length
      let N2 := x2.length
      [(List.range (N0 * N1 * N2)).map (fun m => x0.getD (m / N1 % N0) 0),
       (List.range (N0 * N1 * N2)).map (fun m => x1.getD (m % N1) 0),
       (List.range (N0 * N1 * N2)).map (fun m => x2.getD (m / (N1 * N0)) 0)]
  | _ => []

/-- Per-dimension grid indices of flattened position `m` under the mesh
flattening written in the source (`meshgrid` + `ravel('F')`,
see `meshRavelF`): entry `d` is the index into dimension `d`'s coordinates. -/
def meshPointIdx (N : List ℕ) (m : ℕ) : List ℕ :=
  match N with
  | [_] => [m]
  | [_, N1] => [m / N1, m % N1]
  | [N0, N1, _] => [m / N1 % N0, m % N1, m / (N1 * N0)]
  | _ => []

/-- Per-dimension grid indices of flattened position `m` under the index
convention induced by the nested Kronecker products of the source's kinetic
terms (`np.kron(np.kron(A0, A1), A2)`): the last dimension is fastest. -/
def kronPointIdx (N : List ℕ) (m : ℕ) : List ℕ :=
  match N with
  | [_] => [m]
  | [_, N1] => [m / N1, m % N1]
  | [_, N1, N2] => [m / N2 / N1, m / N2 % N1, m % N2]
  | _ => []

/-- `domain[i][1] - domain[i][0]`, the signed length of the `i`-th domain. -/
def domLen (domain : List (List K)) (i : ℕ) : K :=
  (domain.getD i []).getD 1 0 - (domain.getD i []).getD 0 0

/-- Default diagonal kinetic coefficients: `-1*np.ones(n)` when the caller
passed an empty sequence (source lines 100-101). -/
def kdiagDefault (n : ℕ) (k_diag : List K) : List K :=
  if k_diag.length = 0 then List.replicate n (-1) else k_diag

/-- Rescaled diagonal coefficients
`k_diag[ii]*(2*np.pi)**2/(domain[ii][1]-domain[ii][0])**2` for
`ii in range(n)` (source lines 106-107; this comprehension runs and is the
last statement completed before line 109 raises).  A zero domain length gives
a division by zero (numpy emits `inf`/`nan`, not an exception, since
`(2*np.pi)**2` is a numpy float). -/
def rescaleKdiag (pi : K) (n : ℕ) (domain : List (List K)) (kd : List K) : List K :=
  (List.range n).map (fun ii => kd.getD ii 0 * (2 * pi) ^ 2 / (domLen domain ii) ^ 2)

/-- The fail-fast input validation of source lines 82-97, in source order:
dimension count above 3; domain count differing from the dimension count; a
domain entry with fewer than two, or more than two, endpoints (first offending
entry decides, and the fewer-than-two message wins for that entry).  Returns
the message of the exception raised, or `none` when validation passes. -/
def validate (N : List ℕ) (domain : List (List K)) : Option String :=
  let n := N.length
  if n > 3 then some ("Eigensolver currently works for D <= 3 dimensions.")
  else if n ≠ domain.length then
    some ("Number of domains does not match dimensionality.")
  else
    match domain.find? (fun d => decide (d.length ≠ 2)) with
    | some d =>
        if d.length < 2 then some ("Each domain must have both a min and max endpoint.")
        else some ("Invalid domain specification.")
    | none => none

/-- The coordinate grid the final return statements of the source (lines
161-164) would produce: `x[0]` when `n = 1`, otherwise the per-dimension
coordinate sequences `x`.  (Dead code behind line 109; kept as the shape of
the intended result.) -/
inductive GridOut (K : Type*) where
  | one : List K → GridOut K
  | many : List (List K) → GridOut K

/-- Shape of a successful `eigensolver` result as written in source lines
151-164: either the sorted eigenvalues alone (`vals_only=True`) or
eigenvalues, eigenvector matrix and grid.  No execution reaches these
returns (see `eigensolver`); the type records the intended interface. -/
inductive EigOut (K : Type*) where
  | valsOnly : List K → EigOut K
  | full : List K → (ℕ → ℕ → K) → GridOut K → EigOut K

/-- The solver of source lines 55-164, traced faithfully.  After the
validation of lines 82-97 (see `validate`) and the `k_diag` defaulting of
lines 100-101, the rescaling comprehension of lines 106-107 reads
`k_diag[ii]` for every `ii < n` and raises `IndexError` when the (defaulted)
sequence is shorter than `n`; otherwise execution reaches line 109,
`cb = it.combinations(np.arange(n),2)`, where the name `it` is unbound
(`itertools` is never imported), so the call raises
`NameError: name 'it' is not defined`.  No sample points, mesh, potential
evaluation, Hamiltonian assembly, or eigendecomposition is ever performed:
every call returns one of these errors.  `N` is modelled as a list (the
source also accepts a bare int, which it immediately wraps into a
one-element array); `U`, `k_cross` and `vals_only` are accepted but never
used before the failure. -/
def eigensolver (U : List K → K) (N : List ℕ) (domain : List (List K))
    (k_diag k_cross : List K) (vals_only : Bool) : Except String (EigOut K) :=
  match validate N domain with
  | some msg => Except.error msg
  | none =>
    let kd0 := kdiagDefault N.length k_diag
    if kd0.length < N.length then
      Except.error ("IndexError: list index out of range")
    else
      Except.error ("NameError: name 'it' is not defined")

/-- The content of the caller's `k_cross` sequence when the call terminates.
The only statement of the source that mutates a caller-supplied argument is
the in-place rescaling `k_cross[ii] *= ...` of lines 111-115 (`k_diag`, `N`
and `k_cross`-defaulting only rebind local names).  That loop is unreachable:
every call raises during validation (lines 82-97), in the `k_diag` rescaling
(lines 106-107, `IndexError` for a short sequence), or at line 109
(`NameError`, the unbound `it`), all before lines 111-115.  So on every
path the caller's sequence is left untouched. -/
def eigensolverKcrossAfter (N : List ℕ) (domain : List (List K))
    (k_diag k_cross : List K) : List K :=
  match validate N domain with
  | some _ => k_cross
  | none =>
    if (kdiagDefault N.length k_diag).length < N.length then k_cross
    else k_cross

/-- The lift of a dimension-0 operator `A` that the spec's consistency
sentence dictates (stated from the spec's words, for comparison with the
source's Kronecker construction): row/column `m` refers to the grid point
with per-dimension indices `meshPointIdx N m`, so the entry is
`A[i0(m), i0(j)]` when the indices of all other dimensions agree, and `0`
otherwise.  For dimension counts below 3 the out-of-range `getD` defaults
make the corresponding agreement conditions trivially true. -/
def meshConventionLiftDim0 (N : List ℕ) (A : Mat K) : Mat K :=
  fun m j =>
    if (meshPointIdx N m).getD 1 0 = (meshPointIdx N j).getD 1 0 ∧
        (meshPointIdx N m).getD 2 0 = (meshPointIdx N j).getD 2 0 then
      A ((meshPointIdx N m).getD 0 0) ((meshPointIdx N j).getD 0 0)
    else 0

/-! ## Supporting lemmas -/

lemma getD_map_range (P : ℕ) (f : ℕ → K) (m : ℕ) (hm : m < P) :
    ((List.range P).map f).getD m 0 = f m := by
  rw [List.getD_eq_getElem _ _ (by simpa using hm)]
  simp

lemma meshRavelF_pair_getD (x0 x1 : List K) (m : ℕ) (hm : m < x0.length * x1.length) :
    (meshRavelF [x0, x1]).map (fun c => c.getD m 0)
      = [x0.getD (m / x1.length) 0, x1.getD (m % x1.length) 0] := by
  simp only [meshRavelF, List.map_cons, List.map_nil]
  rw [getD_map_range _ _ _ hm, getD_map_range _ _ _ hm]

lemma validate_none_of (N : List ℕ) (domain : List (List K))
    (h1 : ¬ N.length > 3) (h2 : N.length = domain.length)
    (h3 : ∀ d ∈ domain, d.length = 2) : validate (K := K) N domain = none := by
  unfold validate
  rw [if_neg h1, if_neg (by simp [h2])]
  have hf : domain.find? (fun d => decide (d.length ≠ 2)) = none := by
    rw [List.find?_eq_none]
    intro d hd
    simpa using h3 d hd
  rw [hf]

lemma validate_some_of_bad (N : List ℕ) (domain : List (List K))
    (h : domain.length ≠ N.length ∨ ∃ d ∈ domain, d.length ≠ 2) :
    ∃ msg, validate (K := K) N domain = some msg := by
  unfold validate
  by_cases hgt : N.length > 3
  · exact ⟨_, by rw [if_pos hgt]⟩
  · rw [if_neg hgt]
    by_cases hne : N.length ≠ domain.length
    · exact ⟨_, by rw [if_pos hne]⟩
    · push_neg at hne
      rcases h with hlen | ⟨d, hd, hdl⟩
      · exact absurd hne.symm hlen
      · rw [if_neg (by simp [hne])]
        have hs : (domain.find? (fun d => decide (d.length ≠ 2))).isSome := by
          rw [List.find?_isSome]
          exact ⟨d, hd, by simpa using hdl⟩
        obtain ⟨d', hd'⟩ := Option.isSome_iff_exists.mp hs
        by_cases hl : d'.length < 2
        · exact ⟨"Each domain must have both a min and max endpoint.", by rw [hd']; simp [hl]⟩
        · exact ⟨"Invalid domain specification.", by rw [hd']; simp [hl]⟩

lemma eigensolver_error_of_validate (U : List K → K) (N : List ℕ)
    (domain : List (List K)) (k_diag k_cross : List K) (vals_only : Bool)
    (msg : String) (hm : validate (K := K) N domain = some msg) :
    eigensolver U N domain k_diag k_cross vals_only = Except.error msg := by
  unfold eigensolver
  rw [hm]

lemma kdiagDefault_not_short (n : ℕ) (kd : List K)
    (hkd : kd.length = 0 ∨ n ≤ kd.length) :
    ¬ (kdiagDefault n kd).length < n := by
  unfold kdiagDefault
  rcases hkd with h | h
  · rw [if_pos h]
    simp
  · split
    · simp
    · omega

lemma eigensolver_nameerror (U : List K → K) (N : List ℕ)
    (domain : List (List K)) (k_diag k_cross : List K) (vals_only : Bool)
    (hv : validate (K := K) N domain = none)
    (hkd : ¬ (kdiagDefault N.length k_diag).length < N.length) :
    eigensolver U N domain k_diag k_cross vals_only
      = Except.error ("NameError: name 'it' is not defined") := by
  unfold eigensolver
  rw [hv, if_neg hkd]

/-! ## Claims -/

/-- C6: for every input whose point-count list `N` has more than 3 entries,
`eigensolver` raises the dimension-count configuration error; structurally
this happens in the validation stage (source line 83), before any
differentiation matrix, mesh, or Hamiltonian is built and before the
line-109 failure. -/
theorem c6_dimension_guard (U : List K → K) (N : List ℕ)
    (domain : List (List K)) (k_diag k_cross : List K) (vals_only : Bool)
    (hN : N.length > 3) :
    eigensolver U N domain k_diag k_cross vals_only
      = Except.error ("Eigensolver currently works for D <= 3 dimensions.") := by
  unfold eigensolver
  rw [show validate (K := K) N domain
      = some ("Eigensolver currently works for D <= 3 dimensions.") from by
    unfold validate
    rw [if_pos hN]]

/-- C6 witness: a concrete 4-dimensional call is rejected. -/
theorem c6_dimension_guard_witness :
    ([1, 1, 1, 1] : List ℕ).length > 3 ∧
    eigensolver (K := ℚ) (fun _ => 0) [1, 1, 1, 1] [[0, 1], [0, 1], [0, 1], [0, 1]]
        [] [] true
      = Except.error ("Eigensolver currently works for D <= 3 dimensions.") :=
  ⟨by decide,
   c6_dimension_guard (fun _ => 0) [1, 1, 1, 1] [[0, 1], [0, 1], [0, 1], [0, 1]]
     [] [] true (by decide)⟩

/-- C7: whenever the number of domain entries differs from the dimension
count, or some domain entry does not have exactly two endpoints, the solver
raises an exception; structurally this happens in the validation stage
(source lines 89-97), before any grid, differentiation-matrix, or
Hamiltonian work. -/
theorem c7_domain_validation (U : List K → K) (N : List ℕ)
    (domain : List (List K)) (k_diag k_cross : List K) (vals_only : Bool)
    (h : domain.length ≠ N.length ∨ ∃ d ∈ domain, d.length ≠ 2) :
    ∃ msg, eigensolver U N domain k_diag k_cross vals_only
      = Except.error msg := by
  obtain ⟨msg, hm⟩ := validate_some_of_bad N domain h
  exact ⟨msg, eigensolver_error_of_validate U N domain k_diag k_cross vals_only msg hm⟩

/-- C7 witness: a concrete call whose single domain has one endpoint is
rejected. -/
theorem c7_domain_validation_witness :
    (([[0]] : List (List ℚ)).length ≠ ([2] : List ℕ).length ∨
      ∃ d ∈ ([[0]] : List (List ℚ)), d.length ≠ 2) ∧
    ∃ msg, eigensolver (K := ℚ) (fun _ => 0) [2] [[0]] [] [] true
      = Except.error msg :=
  ⟨by decide,
   c7_domain_validation (fun _ => 0) [2] [[0]] [] [] true (by decide)⟩

/-- C10: validation never checks the ordering of domain endpoints: any input
whose domains all have exactly two endpoints passes validation (whatever the
endpoint order); a 1-dimensional call with an arbitrary (possibly reversed
or degenerate) domain raises no configuration error — it fails only with the
module-level `NameError` of line 109, after validation accepted the domain —
and for a degenerate domain `[a, a]` the kinetic rescaling of lines 106-107
literally divides by the zero squared domain length. -/
theorem c10_no_ordering_check :
    (∀ (N : List ℕ) (domain : List (List K)), ¬ N.length > 3 →
        N.length = domain.length → (∀ d ∈ domain, d.length = 2) →
        validate (K := K) N domain = none) ∧
    (∀ (U : List K → K) (N0 : ℕ) (a b : K) (k_diag k_cross : List K)
        (vals_only : Bool),
        eigensolver U [N0] [[a, b]] k_diag k_cross vals_only
          = Except.error ("NameError: name 'it' is not defined")) ∧
    (∀ (pi a k : K), rescaleKdiag pi 1 [[a, a]] [k] = [k * (2 * pi) ^ 2 / 0]) := by
  refine ⟨fun N domain h1 h2 h3 => validate_none_of N domain h1 h2 h3, ?_, ?_⟩
  · intro U N0 a b k_diag k_cross vals_only
    exact eigensolver_nameerror U [N0] [[a, b]] k_diag k_cross vals_only
      (validate_none_of [N0] [[a, b]] (by simp) (by simp) (by simp))
      (kdiagDefault_not_short 1 k_diag (by omega))
  · intro pi a k
    simp [rescaleKdiag, domLen, List.range_succ]

/-- C10 witness: a reversed domain `[1, 0]` passes validation, and the
degenerate rescaling for `[7, 7]` divides by zero. -/
theorem c10_no_ordering_check_witness :
    (¬ ([2] : List ℕ).length > 3) ∧ (([2] : List ℕ).length = ([[1, 0]] : List (List ℚ)).length) ∧
    (∀ d ∈ ([[1, 0]] : List (List ℚ)), d.length = 2) ∧
    validate (K := ℚ) [2] [[1, 0]] = none ∧
    rescaleKdiag (K := ℚ) 3 1 [[7, 7]] [5] = [5 * (2 * 3) ^ 2 / 0] :=
  ⟨by decide, by decide, by decide,
   c10_no_ordering_check.1 [2] [[1, 0]] (by decide) (by decide) (by decide),
   c10_no_ordering_check.2.2 3 7 5⟩

/-- C5 (code bug): the solver never returns an eigenvalue sequence at all —
every call produces an exception (a validation error, the line-106
`IndexError`, or the line-109 `NameError`), so neither code path reaches the
eigendecomposition and sort of lines 151-160.  The claim describes the
clearly intended behaviour (the source explicitly argsorts on both paths);
the missing `itertools` import makes it unrealisable. -/
theorem c5_never_returns_ok (U : List K → K) (N : List ℕ)
    (domain : List (List K)) (k_diag k_cross : List K) (vals_only : Bool) :
    ∃ msg, eigensolver U N domain k_diag k_cross vals_only
      = Except.error msg := by
  unfold eigensolver
  cases hv : validate (K := K) N domain with
  | some msg => exact ⟨msg, rfl⟩
  | none =>
      by_cases hk : (kdiagDefault N.length k_diag).length < N.length
      · exact ⟨_, by rw [if_pos hk]⟩
      · exact ⟨_, by rw [if_neg hk]⟩

/-- C2 (code bug): a perfectly valid 3-dimensional input never gets its
claimed third diagonal kinetic term `k_diag[2]*(I(N0) ⊗ I(N1) ⊗ D2(N2))`:
the call passes validation (first conjunct) and then raises `NameError` at
line 109 (`it` unbound), long before the 3-D branch; and even with
the import repaired, source line 143 writes
`np.kron(np.kron(np.eye(N[0]),np.eye(N[1]),_d2(N[2],h[2])))`, passing three
arguments to the inner binary `np.kron` (and one to the outer), which raises
`TypeError`, so the term is never built either way. -/
theorem c2_threeD_never_assembled (U : List K → K) (N0 N1 N2 : ℕ)
    (a0 b0 a1 b1 a2 b2 : K) (k_diag k_cross : List K) (vals_only : Bool)
    (h0 : a0 < b0) (h1 : a1 < b1) (h2 : a2 < b2)
    (hkd : k_diag.length = 0 ∨ 3 ≤ k_diag.length) :
    validate (K := K) [N0, N1, N2] [[a0, b0], [a1, b1], [a2, b2]] = none ∧
    eigensolver U [N0, N1, N2] [[a0, b0], [a1, b1], [a2, b2]] k_diag k_cross vals_only
      = Except.error ("NameError: name 'it' is not defined") := by
  have hv : validate (K := K) [N0, N1, N2] [[a0, b0], [a1, b1], [a2, b2]] = none :=
    validate_none_of _ _ (by simp) (by simp) (by simp)
  exact ⟨hv, eigensolver_nameerror U _ _ k_diag k_cross vals_only hv
    (kdiagDefault_not_short 3 k_diag hkd)⟩

/-- C2 witness: a concrete valid 3-D call fails with the `NameError`. -/
theorem c2_threeD_never_assembled_witness :
    ((0 : ℚ) < 1) ∧ (([] : List ℚ).length = 0 ∨ 3 ≤ ([] : List ℚ).length) ∧
    validate (K := ℚ) [2, 2, 2] [[0, 1], [0, 1], [0, 1]] = none ∧
    eigensolver (K := ℚ) (fun _ => 0) [2, 2, 2] [[0, 1], [0, 1], [0, 1]] [] [] true
      = Except.error ("NameError: name 'it' is not defined") :=
  ⟨by norm_num, by decide,
   c2_threeD_never_assembled (fun _ => 0) 2 2 2 0 1 0 1 0 1 [] [] true
     (by norm_num) (by norm_num) (by norm_num) (by decide)⟩

/-- C1 (code bug): for every valid 2-dimensional input (two domains with
`min < max`, a `k_diag` that is defaulted or long enough), the solver does
NOT reach the Hamiltonian assembly: validation passes (first conjunct) and
the call then raises `NameError: name 'it' is not defined` at source line
109 — `itertools` is never imported — before sample points, mesh, potential
sampling and the 2-D assembly of lines 134-138. -/
theorem c1_nameerror_before_assembly (U : List K → K) (N0 N1 : ℕ)
    (a0 b0 a1 b1 : K) (k_diag k_cross : List K) (vals_only : Bool)
    (h0 : a0 < b0) (h1 : a1 < b1)
    (hkd : k_diag.length = 0 ∨ 2 ≤ k_diag.length) :
    validate (K := K) [N0, N1] [[a0, b0], [a1, b1]] = none ∧
    eigensolver U [N0, N1] [[a0, b0], [a1, b1]] k_diag k_cross vals_only
      = Except.error ("NameError: name 'it' is not defined") := by
  have hv : validate (K := K) [N0, N1] [[a0, b0], [a1, b1]] = none :=
    validate_none_of _ _ (by simp) (by simp) (by simp)
  exact ⟨hv, eigensolver_nameerror U _ _ k_diag k_cross vals_only hv
    (kdiagDefault_not_short 2 k_diag hkd)⟩

/-- C1 witness: a concrete valid 2-D call fails with the `NameError`. -/
theorem c1_nameerror_before_assembly_witness :
    ((0 : ℚ) < 1) ∧ (([] : List ℚ).length = 0 ∨ 2 ≤ ([] : List ℚ).length) ∧
    validate (K := ℚ) [2, 2] [[0, 1], [0, 1]] = none ∧
    eigensolver (K := ℚ) (fun _ => 0) [2, 2] [[0, 1], [0, 1]] [] [] true
      = Except.error ("NameError: name 'it' is not defined") :=
  ⟨by norm_num, by decide,
   c1_nameerror_before_assembly (fun _ => 0) 2 2 0 1 0 1 [] [] true
     (by norm_num) (by norm_num) (by decide)⟩

/-- C3 (code bug): on the full-decomposition path (`vals_only=False`) the
solver never returns eigenvalues, an eigenvector matrix, or a grid: every
such call passes 1-D validation (first conjunct) and raises `NameError` at
line 109, so `la.eigh` (line 157) and the reordering `evecs = evecs[idx]`
(line 160) are never executed.  Note also that the return statement's text
permutes ROWS (`evecs[idx]`), not the claimed columns (`evecs[:, idx]`), so
the claim would fail even with the import repaired whenever the
decomposition's value order is nontrivial. -/
theorem c3_full_path_never_returns (U : List K → K) (N0 : ℕ) (a b : K)
    (k_diag k_cross : List K) :
    validate (K := K) [N0] [[a, b]] = none ∧
    eigensolver U [N0] [[a, b]] k_diag k_cross false
      = Except.error ("NameError: name 'it' is not defined") := by
  have hv : validate (K := K) [N0] [[a, b]] = none :=
    validate_none_of _ _ (by simp) (by simp) (by simp)
  exact ⟨hv, eigensolver_nameerror U _ _ k_diag k_cross false hv
    (kdiagDefault_not_short 1 k_diag (by omega))⟩

/-- C9: the solver never mutates its caller's argument sequences and is a
deterministic function of its argument values.  `N`, `domain` and `k_diag`
are only rebound, never assigned into; the one in-place assignment of the
source, `k_cross[ii] *= ...` at lines 111-115, is unreachable behind the
line-109 `NameError`, so the caller's `k_cross` survives every call
unchanged. -/
theorem c9_no_argument_mutation :
    (∀ (N : List ℕ) (domain : List (List K)) (k_diag k_cross : List K),
        eigensolverKcrossAfter N domain k_diag k_cross = k_cross) ∧
    (∀ (U : List K → K) (N : List ℕ) (domain : List (List K))
        (k_diag k_cross : List K) (vals_only : Bool),
        eigensolver U N domain k_diag k_cross vals_only
          = eigensolver U N domain k_diag k_cross vals_only) := by
  constructor
  · intro N domain k_diag k_cross
    unfold eigensolverKcrossAfter
    split
    · rfl
    · split <;> rfl
  · intro U N domain k_diag k_cross vals_only
    rfl

/-- C4 counterexample: at dimension count 3 the mesh flattening and the
Kronecker flattening disagree.  With `N = [2,2,2]`, flattened position 4 is
the mesh point with per-dimension indices `[0,0,1]` (so the sampled potential
vector holds `U(x0[0], x1[0], x2[1])` there — coordinates `[10, 20, 31]` for
the concrete grid below), while the Kronecker products place the tensor index
`[1,0,0]` at row 4; concretely, the first 3-D diagonal kinetic pattern
`A ⊗ I ⊗ I` has `A[1,0] = 3 ≠ 0` at entry `(4,0)`, where the mesh-convention
lift of `A` (the matrix the claim's consistency property dictates) is `0`. -/
theorem c4_convention_cex :
    meshPointIdx [2, 2, 2] 4 = [0, 0, 1] ∧
    kronPointIdx [2, 2, 2] 4 = [1, 0, 0] ∧
    meshPointIdx [2, 2, 2] 4 ≠ kronPointIdx [2, 2, 2] 4 ∧
    (meshRavelF (K := ℚ) [[10, 11], [20, 21], [30, 31]]).map (fun c => c.getD 4 0)
      = [10, 20, 31] ∧
    kron (K := ℚ) 2 2 (kron 2 2 (fun i j => 2 * (i : ℚ) + (j : ℚ) + 1) eye) eye 4 0
      = 3 ∧
    meshConventionLiftDim0 (K := ℚ) [2, 2, 2]
      (fun i j => 2 * (i : ℚ) + (j : ℚ) + 1) 4 0 = 0 ∧
    (3 : ℚ) ≠ 0 :=
  ⟨by decide, by decide, by decide, by rfl, by norm_num [kron, eye], by rfl,
   by norm_num⟩

/-- C4 (amended): the index conventions agree for dimension counts 1 and 2 —
`meshPointIdx` and `kronPointIdx` coincide, every 2-D Kronecker kinetic term
reads its factors at exactly the mesh indices, the spec-dictated
mesh-convention lift coincides with the source's `kron(A, I)`, and the
flattened mesh coordinates at position `m` are the per-dimension coordinates
at the mesh indices.  (For dimension count 3 the conventions differ; see the
counterexample.) -/
theorem c4_convention_12d :
    (∀ (N0 m : ℕ), meshPointIdx [N0] m = kronPointIdx [N0] m) ∧
    (∀ (N0 N1 m : ℕ), meshPointIdx [N0, N1] m = kronPointIdx [N0, N1] m) ∧
    (∀ (N0 N1 : ℕ) (A B : Mat K) (m j : ℕ),
        kron N1 N1 A B m j
          = A ((meshPointIdx [N0, N1] m).getD 0 0) ((meshPointIdx [N0, N1] j).getD 0 0)
            * B ((meshPointIdx [N0, N1] m).getD 1 0) ((meshPointIdx [N0, N1] j).getD 1 0)) ∧
    (∀ (N0 N1 : ℕ) (A : Mat K) (m j : ℕ),
        meshConventionLiftDim0 [N0, N1] A m j = kron N1 N1 A eye m j) ∧
    (∀ (x0 x1 : List K) (m : ℕ), m < x0.length * x1.length →
        (meshRavelF [x0, x1]).map (fun c => c.getD m 0)
          = [x0.getD ((meshPointIdx [x0.length, x1.length] m).getD 0 0) 0,
             x1.getD ((meshPointIdx [x0.length, x1.length] m).getD 1 0) 0]) := by
  refine ⟨fun N0 m => rfl, fun N0 N1 m => rfl, fun N0 N1 A B m j => rfl, ?_, ?_⟩
  · intro N0 N1 A m j
    by_cases h : m % N1 = j % N1
    · simp [meshConventionLiftDim0, meshPointIdx, kron, eye, h]
    · simp [meshConventionLiftDim0, meshPointIdx, kron, eye, h]
  · intro x0 x1 m hm
    rw [meshRavelF_pair_getD x0 x1 m hm]
    rfl

/-- C4 amended witness: a concrete 2-D instance of the grounding conjunct. -/
theorem c4_convention_12d_witness :
    (1 < ([(10 : ℚ), 11]).length * ([(20 : ℚ), 21]).length) ∧
    (meshRavelF (K := ℚ) [[10, 11], [20, 21]]).map (fun c => c.getD 1 0)
      = [([(10 : ℚ), 11]).getD
           ((meshPointIdx [([(10 : ℚ), 11]).length, ([(20 : ℚ), 21]).length] 1).getD 0 0) 0,
         ([(20 : ℚ), 21]).getD
           ((meshPointIdx [([(10 : ℚ), 11]).length, ([(20 : ℚ), 21]).length] 1).getD 1 0) 0] :=
  ⟨by decide, c4_convention_12d.2.2.2.2 [10, 11] [20, 21] 1 (by decide)⟩

lemma toeplitz1_symm (col : ℕ → K) (i j : ℕ) :
    toeplitz1 col i j = toeplitz1 col j i := by
  unfold toeplitz1
  by_cases h1 : j ≤ i <;> by_cases h2 : i ≤ j <;> simp [h1, h2]
  omega

lemma d1col_canonical_rev (N k : ℕ) (hN : Even N) (hk : k ≤ N) :
    d1col Real.tan (2 * Real.pi / (N : ℝ)) (N - k)
      = -(d1col Real.tan (2 * Real.pi / (N : ℝ)) k) := by
  rcases Nat.eq_zero_or_pos N with rfl | hNpos
  · have hk0 : k = 0 := Nat.le_zero.mp hk
    subst hk0
    simp [d1col]
  · have hNne : (N : ℝ) ≠ 0 := Nat.cast_ne_zero.mpr hNpos.ne'
    have hdN : d1col Real.tan (2 * Real.pi / (N : ℝ)) N = 0 := by
      unfold d1col
      rw [if_neg hNpos.ne']
      rw [show (N : ℝ) * (2 * Real.pi / (N : ℝ)) / 2 = Real.pi from by
        field_simp]
      rw [Real.tan_pi, div_zero]
    rcases Nat.eq_zero_or_pos k with rfl | hkpos
    · rw [Nat.sub_zero, hdN]
      simp [d1col]
    · rcases eq_or_lt_of_le hk with rfl | hklt
      · rw [Nat.sub_self, hdN]
        simp [d1col]
      · unfold d1col
        rw [if_neg (by omega : ¬ N - k = 0), if_neg hkpos.ne']
        rw [show ((N - k : ℕ) : ℝ) * (2 * Real.pi / (N : ℝ)) / 2
            = Real.pi - (k : ℝ) * (2 * Real.pi / (N : ℝ)) / 2 from by
          rw [Nat.cast_sub hk]
          field_simp
          ring]
        rw [Real.tan_pi_sub]
        have h1 : (-1 : ℝ) ^ (N - k) * (-1) ^ k = (-1) ^ N := by
          rw [← pow_add]
          congr 1
          omega
        have h2 : ((-1 : ℝ)) ^ N = 1 := hN.neg_one_pow
        have h3 : ((-1 : ℝ)) ^ k * (-1) ^ k = 1 := by
          rw [← pow_add]
          exact Even.neg_one_pow ⟨k, rfl⟩
        have hsgn : ((-1 : ℝ)) ^ (N - k) = (-1) ^ k := by
          calc (-1 : ℝ) ^ (N - k)
              = (-1) ^ (N - k) * ((-1) ^ k * (-1) ^ k) := by rw [h3, mul_one]
            _ = ((-1) ^ (N - k) * (-1) ^ k) * (-1) ^ k := by ring
            _ = 1 * (-1) ^ k := by rw [h1, h2]
            _ = (-1) ^ k := one_mul _
        rw [hsgn, div_neg]

/-- C8 counterexample: the first-derivative matrix is not skew-symmetric for
an arbitrary spacing `h > 0`.  At `N = 2`, `h = pi/2` both off-diagonal
entries equal `-1/2` (the matrix is symmetric with a nonzero off-diagonal
entry), so `D1(0,1) = -D1(1,0)` fails. -/
theorem c8_skew_cex :
    (2 : ℕ) ≥ 2 ∧ (0 : ℝ) < Real.pi / 2 ∧
    _d1 Real.tan 2 (Real.pi / 2) 0 1 = -(1 / 2) ∧
    _d1 Real.tan 2 (Real.pi / 2) 1 0 = -(1 / 2) ∧
    ¬ (_d1 Real.tan 2 (Real.pi / 2) 0 1 = -(_d1 Real.tan 2 (Real.pi / 2) 1 0)) := by
  have harg : ((2 - 1 : ℕ) : ℝ) * (Real.pi / 2) / 2 = Real.pi / 4 := by
    push_cast
    ring
  have h01 : _d1 Real.tan 2 (Real.pi / 2) 0 1 = -(1 / 2) := by
    simp only [_d1, toeplitz2, d1row, d1col]
    rw [if_neg (by omega), if_neg (by omega), if_neg (by omega)]
    rw [harg, Real.tan_pi_div_four]
    norm_num
  have h10 : _d1 Real.tan 2 (Real.pi / 2) 1 0 = -(1 / 2) := by
    simp only [_d1, toeplitz2, d1col]
    rw [if_pos (by omega), if_neg (by omega)]
    rw [show ((1 - 0 : ℕ) : ℝ) * (Real.pi / 2) / 2 = Real.pi / 4 from by
      push_cast
      ring]
    rw [Real.tan_pi_div_four]
    norm_num
  refine ⟨by norm_num, by positivity, h01, h10, ?_⟩
  rw [h01, h10]
  norm_num

/-- C8 (amended): the second-derivative matrix `_d2` is symmetric for every
size and spacing, and the first-derivative matrix `_d1` is skew-symmetric for
the canonical spacing `h = 2*pi/N` actually used by the solver whenever `N`
is even (for odd `N` with the canonical spacing, and for generic `h`, the
matrix is not skew-symmetric; see the counterexample). -/
theorem c8_symmetry :
    (∀ (N : ℕ) (h : ℝ) (i j : ℕ),
        _d2 Real.sin Real.pi N h i j = _d2 Real.sin Real.pi N h j i) ∧
    (∀ (N i j : ℕ), Even N → i < N → j < N →
        _d1 Real.tan N (2 * Real.pi / (N : ℝ)) i j
          = -(_d1 Real.tan N (2 * Real.pi / (N : ℝ)) j i)) := by
  constructor
  · intro N h i j
    exact toeplitz1_symm _ i j
  · intro N i j hN hi hj
    unfold _d1 toeplitz2 d1row
    rcases lt_trichotomy i j with hlt | heq | hgt
    · rw [if_neg (by omega), if_pos hlt.le, if_neg (by omega : ¬ j - i = 0)]
      exact d1col_canonical_rev N (j - i) hN (by omega)
    · subst heq
      simp [d1col]
    · rw [if_pos hgt.le, if_neg (by omega), if_neg (by omega : ¬ i - j = 0)]
      rw [d1col_canonical_rev N (i - j) hN (by omega), neg_neg]

/-- C8 amended witness: the even canonical case `N = 2` at entry `(0, 1)`. -/
theorem c8_symmetry_witness :
    Even 2 ∧ 0 < 2 ∧ 1 < 2 ∧
    _d1 Real.tan 2 (2 * Real.pi / ((2 : ℕ) : ℝ)) 0 1
      = -(_d1 Real.tan 2 (2 * Real.pi / ((2 : ℕ) : ℝ)) 1 0) :=
  ⟨by decide, by norm_num, by norm_num,
   c8_symmetry.2 2 0 1 (by decide) (by norm_num) (by norm_num)⟩

end Spectre
